import Mathlib

/-!
Shallow embedding of the Optimization Session Controller of the parking-fee
frontend (file src/frontend/src/components/App/App.js). JavaScript objects are
modelled as Lean structures; a field that may be absent (undefined or null) is
an Option; JavaScript numbers are modelled as rationals (the controller only
copies and compares them, it performs no float arithmetic on the paths
modelled here). Each asynchronous network operation is split into a start
phase (everything before the await, including the local precondition checks)
and a finish phase (everything after the response or the caught failure); the
run function composes the two, and a rejected start never consumes a network
result.
-/

namespace ParkingApp

/-- Per-zone entry of a Scenario returned by the optimizer
(selectedSolution.zones in App.js). -/
structure ZoneResult where
  id : Int
  new_fee : Option ℚ
  predicted_occupancy : Option ℚ
  predicted_revenue : Option ℚ
deriving DecidableEq, Repr

/-- One candidate solution of the Pareto front. -/
structure Scenario where
  scenario_id : Int
  zones : List ZoneResult
  score_revenue : ℚ
  score_occupancy_gap : ℚ
  score_demand_drop : ℚ
  score_user_balance : ℚ
deriving DecidableEq, Repr

/-- Raw optimizer response as stored by the controller (response.data of the
optimize call); the scenarios field may be absent, as the code guards with
response.data.scenarios?.length. -/
structure OptimizationResponse where
  scenarios : Option (List Scenario)
deriving DecidableEq, Repr

/-- In-memory parking zone of the session City. Fields that the code reads
defensively (zone.name, zone.position, zone.maximum_capacity, alias fields
capacity and occupancy, the post-decision fields) are Options. -/
structure Zone where
  id : Int
  name : Option String
  position : Option (ℚ × ℚ)
  current_fee : Option ℚ
  maximum_capacity : Option ℚ
  capacity : Option ℚ
  current_capacity : Option ℚ
  occupancy : Option ℚ
  new_fee : Option ℚ
  predicted_occupancy : Option ℚ
  predicted_revenue : Option ℚ
  elasticity : Option ℚ
  short_term_share : Option ℚ
  min_fee : Option ℚ
  max_fee : Option ℚ
deriving DecidableEq, Repr

/-- Points of interest are opaque to the controller. -/
abbrev POI := String

/-- Session City: name plus the parking_zones list (point_of_interests is
carried but never interpreted by the controller). -/
structure City where
  name : String
  parking_zones : List Zone
  point_of_interests : List POI
deriving DecidableEq, Repr

/-- The weights state object. The four recognized dimensions are the named
fields; extra holds any further keys a JavaScript object could carry (for
example keys introduced by spreading saved weights from the store). -/
structure Weights where
  revenue : ℚ
  occupancy : ℚ
  drop : ℚ
  fairness : ℚ
  extra : List (String × ℚ)
deriving DecidableEq, Repr

/-- Controller state: the useState fields of App that the modelled
operations read or write. -/
structure AppState where
  city : Option City
  loading : Bool
  error : Option String
  weights : Weights
  selectedZoneId : Option Int
  optimizationResponse : Option OptimizationResponse
  optimizerType : String
  optimizing : Bool
  applyingWeights : Bool
  modalMessage : Option String
deriving DecidableEq, Repr

/-- The parking_zones of the held city, empty when no city is loaded; the
code guards with (not city or not city.parking_zones or length zero), which
coincides with this list being empty. -/
def cityZones (s : AppState) : List Zone :=
  match s.city with
  | none => []
  | some c => c.parking_zones

/-- Outcome of the start phase of a network operation: either a local
synchronous rejection (no request is issued) or a started request together
with the state after the pre-await updates. -/
inductive StartResult (ρ : Type) where
  | rejected (s : AppState) : StartResult ρ
  | started (s : AppState) (req : ρ) : StartResult ρ
deriving DecidableEq, Repr

/-- The request issued by a start phase, if any. -/
def requestOf {ρ : Type} : StartResult ρ → Option ρ
  | .rejected _ => none
  | .started _ req => some req

/- ===== LoadCity (fetchCity) ===== -/

/-- fetchCity: sets loading and clears error before the await; on success the
fetched city replaces the held one; on failure the fixed connectivity message
is reported; loading is cleared in the finally block. The request body is
built from settings and data source only, so it is not modelled. -/
def fetchCityRun (s : AppState) (res : Except String City) : AppState :=
  let s1 : AppState := { s with loading := true, error := none }
  match res with
  | .ok cityData => { s1 with city := some cityData, loading := false }
  | .error _ =>
      { s1 with
          error := some "Unable to connect to backend. Make sure the server is running.",
          loading := false }

/- ===== RunOptimization ===== -/

/-- Request of the optimize call; the settings subobjects are configuration
pass-through and are not modelled. -/
structure OptimizeRequest where
  city : City
  optimizer_type : String
deriving DecidableEq, Repr

/-- runOptimization before the await: the precondition (a city with a
non-empty zone list) is checked synchronously; on failure the error is set
and the function returns without issuing a request. -/
def runOptimizationStart (s : AppState) : StartResult OptimizeRequest :=
  match s.city with
  | none =>
      .rejected { s with error := some "No zones loaded. Please wait for zones to load first." }
  | some c =>
      if c.parking_zones.isEmpty then
        .rejected { s with error := some "No zones loaded. Please wait for zones to load first." }
      else
        .started { s with optimizing := true, error := none }
          { city := c, optimizer_type := s.optimizerType }

/-- runOptimization after the await: on success the raw response is stored
and the completion modal is shown; on failure the error is reported; the
optimizing flag is cleared in the finally block. -/
def runOptimizationFinish (s : AppState) (res : Except String OptimizationResponse) :
    AppState :=
  match res with
  | .ok r =>
      { s with
          optimizationResponse := some r,
          modalMessage := some ("Optimization completed! Found "
            ++ toString (r.scenarios.getD []).length ++ " solutions."),
          optimizing := false }
  | .error e =>
      { s with error := some ("Optimization failed: " ++ e), optimizing := false }

/-- Whole runOptimization operation: a rejected start never consumes the
network result. -/
def runOptimizationRun (s : AppState) (res : Except String OptimizationResponse) :
    AppState :=
  match runOptimizationStart s with
  | .rejected s1 => s1
  | .started s1 _ => runOptimizationFinish s1 res

/- ===== ApplyWeights (applyOptimizationWeights) ===== -/

/-- Request of the select-best-solution-by-weight call: the held scenarios
plus the weights dictionary. -/
structure SelectRequest where
  scenarios : Option (List Scenario)
  weights : List (String × ℚ)
deriving DecidableEq, Repr

/-- The weightsDict literal of applyOptimizationWeights: exactly the four
recognized dimensions are read off the weights state. -/
def buildWeightsDict (w : Weights) : List (String × ℚ) :=
  [("revenue", w.revenue), ("occupancy", w.occupancy), ("drop", w.drop),
   ("fairness", w.fairness)]

/-- applyOptimizationWeights before the await: the precondition (a held
optimization response) is checked synchronously; otherwise the request is
issued with the held scenarios and the weights dictionary. -/
def applyWeightsStart (s : AppState) : StartResult SelectRequest :=
  match s.optimizationResponse with
  | none =>
      .rejected
        { s with error := some "No optimization results available. Please run optimization first." }
  | some resp =>
      .started { s with applyingWeights := true, error := none }
        { scenarios := resp.scenarios, weights := buildWeightsDict s.weights }

/-- Per-zone merge of the selected scenario into a city zone, by id lookup:
the first zone result with a matching id supplies new_fee and
predicted_occupancy; with no match the zone is returned as is. -/
def mergeZone (results : List ZoneResult) (zone : Zone) : Zone :=
  match results.find? (fun z => z.id == zone.id) with
  | some updatedZone =>
      { zone with
          new_fee := updatedZone.new_fee,
          predicted_occupancy := updatedZone.predicted_occupancy }
  | none => zone

/-- The setCity update of applyOptimizationWeights: every city zone is merged
against the selected scenario by id. -/
def applyScenarioToCity (c : City) (selectedSolution : Scenario) : City :=
  { c with parking_zones := c.parking_zones.map (mergeZone selectedSolution.zones) }

/-- applyOptimizationWeights after the await: on success the selected
scenario is merged into the held city; building the snapshot afterwards reads
city.parking_zones and throws into the catch block when no city is held (the
save call itself swallows its own failures and never affects this state); on
failure the fixed message is reported; the applyingWeights flag is cleared in
the finally block. -/
def applyWeightsFinish (s : AppState) (res : Except String Scenario) : AppState :=
  match res with
  | .ok selectedSolution =>
      match s.city with
      | some c =>
          { s with
              city := some (applyScenarioToCity c selectedSolution),
              applyingWeights := false }
      | none =>
          { s with
              error := some "Failed to apply optimization weights.",
              applyingWeights := false }
  | .error _ =>
      { s with
          error := some "Failed to apply optimization weights.",
          applyingWeights := false }

/-- Whole applyOptimizationWeights operation. -/
def applyWeightsRun (s : AppState) (res : Except String Scenario) : AppState :=
  match applyWeightsStart s with
  | .rejected s1 => s1
  | .started s1 _ => applyWeightsFinish s1 res

/- ===== LoadSavedResult (loadDbResult) ===== -/

/-- A per-zone record of the persisted map_snapshot; every field may be
absent in a partially specified SavedResult. -/
structure SnapshotZone where
  id : Int
  name : Option String
  position : Option (ℚ × ℚ)
  current_fee : Option ℚ
  maximum_capacity : Option ℚ
  current_capacity : Option ℚ
  new_fee : Option ℚ
  predicted_occupancy : Option ℚ
  predicted_revenue : Option ℚ
  elasticity : Option ℚ
  short_term_share : Option ℚ
  min_fee : Option ℚ
  max_fee : Option ℚ
deriving DecidableEq, Repr

/-- Weights as stored in SavedResult parameters: each recognized dimension
may be absent, and a stored object may carry further keys. -/
structure SavedWeights where
  revenue : Option ℚ
  occupancy : Option ℚ
  drop : Option ℚ
  fairness : Option ℚ
  extra : List (String × ℚ)
deriving DecidableEq, Repr

/-- The parameters object of a SavedResult, restricted to the paths
loadDbResult reads; settings_common_cityName stands for the nested path
parameters.settings.common.cityName (the rest of the settings snapshot is
configuration pass-through and is not modelled). -/
structure SavedParameters where
  optimizer_type : Option String
  weights : Option SavedWeights
  city_name : Option String
  settings_common_cityName : Option String
deriving DecidableEq, Repr

/-- A fetched SavedResult, restricted to the fields loadDbResult reads. -/
structure SavedResult where
  map_snapshot : Option (List SnapshotZone)
  best_scenario : Option Scenario
  optimization_response : Option OptimizationResponse
  parameters : Option SavedParameters
deriving DecidableEq, Repr

/-- JavaScript truthiness of an optional string: absent and empty are both
falsy. -/
def truthyStr : Option String → Option String
  | none => none
  | some str => if str = "" then none else some str

/-- The city name computed by loadDbResult: the nested settings city name,
else parameters.city_name, else the fixed fallback (a JavaScript or-chain, so
empty strings fall through). -/
def dbCityName (p : Option SavedParameters) : String :=
  ((truthyStr (p.bind (fun q => q.settings_common_cityName))).orElse
      (fun _ => truthyStr (p.bind (fun q => q.city_name)))).getD "Loaded from DB"

/-- Zone reconstruction used when the SavedResult carries an optimization
response with scenarios: the pre-decision fields are taken from the snapshot
with numeric fallbacks, and the post-decision fields are not restored. -/
def loadedZoneWithResponse (zone : SnapshotZone) : Zone :=
  { id := zone.id,
    name := zone.name,
    position := zone.position,
    current_fee := some (zone.current_fee.getD 0),
    maximum_capacity := some (zone.maximum_capacity.getD 0),
    capacity := some (zone.maximum_capacity.getD 0),
    current_capacity := some (zone.current_capacity.getD 0),
    occupancy := some (zone.current_capacity.getD 0),
    new_fee := none,
    predicted_occupancy := none,
    predicted_revenue := none,
    elasticity := some (zone.elasticity.getD (-(2/5))),
    short_term_share := some (zone.short_term_share.getD (1/2)),
    min_fee := some (zone.min_fee.getD (1/2)),
    max_fee := some (zone.max_fee.getD 5) }

/-- Zone reconstruction used when the SavedResult carries no optimization
response: the stored final solution, post-decision fields included, is
restored as is, with the same numeric fallbacks. -/
def loadedZoneFinalOnly (zone : SnapshotZone) : Zone :=
  { id := zone.id,
    name := zone.name,
    position := zone.position,
    current_fee := some (zone.current_fee.getD 0),
    maximum_capacity := some (zone.maximum_capacity.getD 0),
    capacity := some (zone.maximum_capacity.getD 0),
    current_capacity := some (zone.current_capacity.getD 0),
    occupancy := some (zone.current_capacity.getD 0),
    new_fee := zone.new_fee,
    predicted_occupancy := zone.predicted_occupancy,
    predicted_revenue := zone.predicted_revenue,
    elasticity := some (zone.elasticity.getD (-(2/5))),
    short_term_share := some (zone.short_term_share.getD (1/2)),
    min_fee := some (zone.min_fee.getD (1/2)),
    max_fee := some (zone.max_fee.getD 5) }

/-- The setWeights merge of loadDbResult: a spread of the saved weights over
the previous ones, so saved keys win and previous keys survive when not
overridden. -/
def restoreWeights (prev : Weights) (sw : SavedWeights) : Weights :=
  { revenue := sw.revenue.getD prev.revenue,
    occupancy := sw.occupancy.getD prev.occupancy,
    drop := sw.drop.getD prev.drop,
    fairness := sw.fairness.getD prev.fairness,
    extra := prev.extra.filter (fun p => !(sw.extra.any (fun q => q.1 == p.1)))
      ++ sw.extra }

/-- loadDbResult given the fetched result (the early return on an empty
selected id is outside this model, which starts at the network call): a
missing or empty map_snapshot is reported as an error; with a stored
optimization response carrying scenarios, the response is restored and the
city is rebuilt pre-decision; otherwise the final solution is shown and the
held response is cleared; then weights and optimizer type are restored (the
settings restore is configuration pass-through, not modelled) and the zone
selection is cleared. -/
def loadDbResultRun (s : AppState) (res : Except String SavedResult) : AppState :=
  let s1 : AppState := { s with loading := true, error := none }
  match res with
  | .error _ =>
      { s1 with error := some "Failed to load result from database.", loading := false }
  | .ok result =>
      match result.map_snapshot with
      | none =>
          { s1 with
              error := some "No map snapshot found in the selected result.",
              loading := false }
      | some snap =>
          if snap.isEmpty then
            { s1 with
                error := some "No map snapshot found in the selected result.",
                loading := false }
          else
            let finalOnly : AppState :=
              { s1 with
                  optimizationResponse := none,
                  city := some
                    { name := dbCityName result.parameters,
                      parking_zones := snap.map loadedZoneFinalOnly,
                      point_of_interests := [] },
                  modalMessage := some ("Loaded result with "
                    ++ toString (snap.map loadedZoneFinalOnly).length
                    ++ " zones (final solution only - no scenarios available)") }
            let s2 : AppState :=
              match result.optimization_response with
              | some orsp =>
                  match orsp.scenarios with
                  | some scen =>
                      { s1 with
                          optimizationResponse := some orsp,
                          city := some
                            { name := dbCityName result.parameters,
                              parking_zones := snap.map loadedZoneWithResponse,
                              point_of_interests := [] },
                          modalMessage := some ("Loaded " ++ toString scen.length
                            ++ " scenarios. Adjust weights and click \"Apply Weights\" to select a solution.") }
                  | none => finalOnly
              | none => finalOnly
            let s3 : AppState :=
              match result.parameters.bind (fun q => q.weights) with
              | some sw => { s2 with weights := restoreWeights s2.weights sw }
              | none => s2
            let s4 : AppState :=
              match truthyStr (result.parameters.bind (fun q => q.optimizer_type)) with
              | some ot => { s3 with optimizerType := ot }
              | none => s3
            { s4 with selectedZoneId := none, loading := false }

/- ===== RunOptimization invocation guard ===== -/

/-- Outcome of invoking RunOptimization through the controls: busy rejection,
local precondition rejection, or an issued request. -/
inductive InvokeOutcome where
  | busy (after : AppState)
  | localReject (after : AppState)
  | requested (after : AppState) (req : OptimizeRequest)
deriving DecidableEq, Repr

/-- The controller state after an invocation outcome. -/
def InvokeOutcome.afterState : InvokeOutcome → AppState
  | .busy s => s
  | .localReject s => s
  | .requested s _ => s

/-- Modelled from the spec: the OptimizerControls component is absent from
the available sources (only its test and its caller are present). Per the
concurrency model of the spec, and per the component test that requires the
run control to be disabled while optimizing, invoking RunOptimization while
one is pending is surfaced as a busy rejection that changes nothing, rather
than being queued; otherwise the invocation proceeds to runOptimizationStart. -/
def runOptimizationInvoke (s : AppState) : InvokeOutcome :=
  if s.optimizing then .busy s
  else
    match runOptimizationStart s with
    | .rejected s1 => .localReject s1
    | .started s1 req => .requested s1 req

/- ===== ApplyWeights invocation control ===== -/

/-- Outcome of clicking the Apply control of MenuPanel: either the control is
disabled and nothing happens, or applyOptimizationWeights is invoked. -/
inductive ApplyInvokeOutcome where
  | disabled (after : AppState)
  | invoked (r : StartResult SelectRequest)
deriving DecidableEq, Repr

/-- The Apply control of MenuPanel.js: the button is disabled exactly when no
optimization response is held (App passes hasOptimizationResults as the
truthiness of optimizationResponse); the applyingWeights flag is not
consulted, so a click invokes applyOptimizationWeights even while a previous
ApplyWeights call is still pending. -/
def applyWeightsInvoke (s : AppState) : ApplyInvokeOutcome :=
  match s.optimizationResponse with
  | none => .disabled s
  | some _ => .invoked (applyWeightsStart s)

/- ===== Helper lemmas ===== -/

theorem mergeZone_id (rs : List ZoneResult) (z : Zone) : (mergeZone rs z).id = z.id := by
  unfold mergeZone
  cases rs.find? (fun r => r.id == z.id) <;> rfl

theorem mergeZone_idem (rs : List ZoneResult) (z : Zone) :
    mergeZone rs (mergeZone rs z) = mergeZone rs z := by
  cases h : rs.find? (fun r => r.id == z.id) with
  | none => simp [mergeZone, h]
  | some u => simp [mergeZone, h]

theorem applyScenarioToCity_idem (c : City) (sel : Scenario) :
    applyScenarioToCity (applyScenarioToCity c sel) sel = applyScenarioToCity c sel := by
  unfold applyScenarioToCity
  simp only [List.map_map]
  congr 1
  exact List.map_congr_left (fun z _ => mergeZone_idem sel.zones z)

theorem mergeLookup_filter_of_mem (zs : List Zone) (z : Zone) (hz : z ∈ zs)
    (rs : List ZoneResult) :
    (rs.filter (fun r => zs.any (fun zz => zz.id == r.id))).find? (fun r => r.id == z.id)
      = rs.find? (fun r => r.id == z.id) := by
  induction rs with
  | nil => rfl
  | cons r rest ih =>
    cases hr : (r.id == z.id) with
    | true =>
      have hzr : (z.id == r.id) = true := beq_iff_eq.mpr (beq_iff_eq.mp hr).symm
      have hkeep : zs.any (fun zz => zz.id == r.id) = true :=
        List.any_eq_true.mpr ⟨z, hz, hzr⟩
      rw [List.filter_cons, if_pos hkeep,
        List.find?_cons_of_pos (p := fun (rr : ZoneResult) => rr.id == z.id) _ hr,
        List.find?_cons_of_pos (p := fun (rr : ZoneResult) => rr.id == z.id) _ hr]
    | false =>
      have hr2 : ¬ ((fun (rr : ZoneResult) => rr.id == z.id) r = true) := by
        simp [hr]
      cases hkeep : zs.any (fun zz => zz.id == r.id) with
      | true =>
        rw [List.filter_cons, if_pos hkeep,
          List.find?_cons_of_neg (p := fun (rr : ZoneResult) => rr.id == z.id) _ hr2,
          List.find?_cons_of_neg (p := fun (rr : ZoneResult) => rr.id == z.id) _ hr2, ih]
      | false =>
        rw [List.filter_cons, if_neg (by simp [hkeep]),
          List.find?_cons_of_neg (p := fun (rr : ZoneResult) => rr.id == z.id) _ hr2, ih]

/- ===== Concrete fixtures ===== -/

def zoneA : Zone :=
  { id := 1, name := some "A", position := none, current_fee := some 2,
    maximum_capacity := some 100, capacity := none, current_capacity := some 50,
    occupancy := none, new_fee := none, predicted_occupancy := none,
    predicted_revenue := none, elasticity := none, short_term_share := none,
    min_fee := none, max_fee := none }

def zoneB : Zone :=
  { zoneA with
      id := 2
      name := some "B"
      current_fee := some (3/2)
      maximum_capacity := some 50
      current_capacity := some 10 }

def zoneC : Zone :=
  { zoneA with id := 3, name := some "C" }

def resultZ1 : ZoneResult :=
  { id := 1, new_fee := some 3, predicted_occupancy := some (3/5),
    predicted_revenue := none }

def cityAB : City :=
  { name := "Karlsruhe", parking_zones := [zoneA, zoneB], point_of_interests := [] }

def cityNew : City :=
  { name := "Stuttgart", parking_zones := [zoneC], point_of_interests := [] }

def scenario1 : Scenario :=
  { scenario_id := 7,
    zones := [resultZ1,
      { id := 99, new_fee := some 9, predicted_occupancy := some 1,
        predicted_revenue := none }],
    score_revenue := 1, score_occupancy_gap := 0, score_demand_drop := 0,
    score_user_balance := 0 }

def resp1 : OptimizationResponse := { scenarios := some [scenario1] }

def baseWeights : Weights :=
  { revenue := 50, occupancy := 30, drop := 10, fairness := 10, extra := [] }

def weightsExtra : Weights :=
  { revenue := 50, occupancy := 30, drop := 10, fairness := 10,
    extra := [("parking", 7)] }

def sessionState : AppState :=
  { city := some cityAB, loading := false, error := none, weights := baseWeights,
    selectedZoneId := none, optimizationResponse := some resp1,
    optimizerType := "elasticity", optimizing := false, applyingWeights := false,
    modalMessage := none }

def emptyState : AppState :=
  { sessionState with city := none, optimizationResponse := none }

def busyState : AppState :=
  { sessionState with optimizing := true }

def pendingApplyState : AppState :=
  { sessionState with applyingWeights := true }

def extraKeyState : AppState :=
  { sessionState with weights := weightsExtra }

def snapZ1 : SnapshotZone :=
  { id := 1, name := some "A", position := none, current_fee := some 2,
    maximum_capacity := some 100, current_capacity := some 50, new_fee := some 3,
    predicted_occupancy := some (3/5), predicted_revenue := some 12,
    elasticity := none, short_term_share := none, min_fee := none, max_fee := none }

def snapZ2 : SnapshotZone :=
  { id := 4, name := none, position := none, current_fee := none,
    maximum_capacity := none, current_capacity := none, new_fee := none,
    predicted_occupancy := none, predicted_revenue := none, elasticity := none,
    short_term_share := none, min_fee := none, max_fee := none }

def savedFull : SavedResult :=
  { map_snapshot := some [snapZ1], best_scenario := none,
    optimization_response := some resp1, parameters := none }

def savedNoSnap : SavedResult :=
  { map_snapshot := some [], best_scenario := none,
    optimization_response := some resp1, parameters := none }

/- ===== Claim theorems ===== -/

/-- C1: ApplyWeights merges the scenario zone results into the City solely by
zone id: the merged zone list is the id-wise merge of the previous zones; a
City zone whose id is found in the zone results receives that result
new_fee and predicted_occupancy (all other fields kept); a City zone whose id
occurs in no zone result is passed through entirely unchanged; and zone
results whose ids match no City zone can be dropped without changing the
outcome, so they are ignored without an error. -/
theorem applyWeights_merges_by_zone_id (c : City) (s : Scenario) :
    ((applyScenarioToCity c s).parking_zones
        = c.parking_zones.map (mergeZone s.zones)) ∧
    (∀ z r, s.zones.find? (fun rr => rr.id == z.id) = some r →
        mergeZone s.zones z
          = { z with new_fee := r.new_fee, predicted_occupancy := r.predicted_occupancy }) ∧
    (∀ z, (∀ r ∈ s.zones, r.id ≠ z.id) → mergeZone s.zones z = z) ∧
    (applyScenarioToCity c { s with zones := s.zones.filter (fun r => c.parking_zones.any (fun z => z.id == r.id)) }
      = applyScenarioToCity c s) := by
  refine ⟨rfl, ?_, ?_, ?_⟩
  · intro z r h
    simp [mergeZone, h]
  · intro z h
    have hnone : s.zones.find? (fun rr => rr.id == z.id) = none := by
      apply List.find?_eq_none.mpr
      intro x hx
      simpa using h x hx
    simp [mergeZone, hnone]
  · unfold applyScenarioToCity
    congr 1
    apply List.map_congr_left
    intro z hz
    unfold mergeZone
    rw [mergeLookup_filter_of_mem c.parking_zones z hz s.zones]

theorem applyWeights_merges_by_zone_id_witness :
    mergeZone scenario1.zones zoneA
        = { zoneA with new_fee := some 3, predicted_occupancy := some (3/5) } ∧
      mergeZone scenario1.zones zoneB = zoneB :=
  ⟨(applyWeights_merges_by_zone_id cityAB scenario1).2.1 zoneA resultZ1 rfl,
   (applyWeights_merges_by_zone_id cityAB scenario1).2.2.1 zoneB (by decide)⟩

/-- C2: with a held response, applying weights twice in succession with the
same selected scenario yields the same state as applying once; the second
select request is identical to the first (same held scenarios, same weights
dictionary), so a deterministic external selection returns the same scenario
both times, and every zone carries identical new_fee and
predicted_occupancy after each call. -/
theorem applyWeights_idempotent (s : AppState) (r : OptimizationResponse)
    (h : s.optimizationResponse = some r) (sel : Scenario) :
    applyWeightsRun (applyWeightsRun s (Except.ok sel)) (Except.ok sel)
        = applyWeightsRun s (Except.ok sel) ∧
      requestOf (applyWeightsStart (applyWeightsRun s (Except.ok sel)))
        = requestOf (applyWeightsStart s) ∧
      (cityZones (applyWeightsRun (applyWeightsRun s (Except.ok sel)) (Except.ok sel))).map
          (fun z => (z.new_fee, z.predicted_occupancy))
        = (cityZones (applyWeightsRun s (Except.ok sel))).map
          (fun z => (z.new_fee, z.predicted_occupancy)) := by
  have hmain : applyWeightsRun (applyWeightsRun s (Except.ok sel)) (Except.ok sel)
      = applyWeightsRun s (Except.ok sel) := by
    cases hc : s.city with
    | none => simp [applyWeightsRun, applyWeightsStart, applyWeightsFinish, h, hc]
    | some c =>
      simp [applyWeightsRun, applyWeightsStart, applyWeightsFinish, h, hc,
        applyScenarioToCity_idem]
  refine ⟨hmain, ?_, by rw [hmain]⟩
  cases hc : s.city with
  | none => simp [applyWeightsRun, applyWeightsStart, applyWeightsFinish, h, hc, requestOf]
  | some c => simp [applyWeightsRun, applyWeightsStart, applyWeightsFinish, h, hc, requestOf]

theorem applyWeights_idempotent_witness :
    applyWeightsRun (applyWeightsRun sessionState (Except.ok scenario1)) (Except.ok scenario1)
        = applyWeightsRun sessionState (Except.ok scenario1) ∧
      requestOf (applyWeightsStart (applyWeightsRun sessionState (Except.ok scenario1)))
        = requestOf (applyWeightsStart sessionState) ∧
      (cityZones (applyWeightsRun (applyWeightsRun sessionState (Except.ok scenario1))
          (Except.ok scenario1))).map (fun z => (z.new_fee, z.predicted_occupancy))
        = (cityZones (applyWeightsRun sessionState (Except.ok scenario1))).map
          (fun z => (z.new_fee, z.predicted_occupancy)) :=
  applyWeights_idempotent sessionState resp1 rfl scenario1

/-- C3: RunOptimization with no city or an empty zone list, and ApplyWeights
with no held response, are rejected locally and synchronously: the start
phase returns a rejection whose state differs from the prior one only in the
reported error (city and optimizationResponse in particular are unchanged),
no request is issued, and the whole operation ignores any network result. -/
theorem preconditions_rejected_locally (s : AppState) :
    (cityZones s = [] →
        runOptimizationStart s
            = .rejected { s with error := some "No zones loaded. Please wait for zones to load first." } ∧
          requestOf (runOptimizationStart s) = none ∧
          ∀ res, runOptimizationRun s res
            = { s with error := some "No zones loaded. Please wait for zones to load first." }) ∧
    (s.optimizationResponse = none →
        applyWeightsStart s
            = .rejected { s with error := some "No optimization results available. Please run optimization first." } ∧
          requestOf (applyWeightsStart s) = none ∧
          ∀ res, applyWeightsRun s res
            = { s with error := some "No optimization results available. Please run optimization first." }) := by
  constructor
  · intro h
    have hstart : runOptimizationStart s
        = .rejected { s with error := some "No zones loaded. Please wait for zones to load first." } := by
      cases hc : s.city with
      | none => simp [runOptimizationStart, hc]
      | some c =>
        have hz : c.parking_zones = [] := by simpa [cityZones, hc] using h
        simp [runOptimizationStart, hc, hz]
    exact ⟨hstart, by simp [requestOf, hstart], fun res => by simp [runOptimizationRun, hstart]⟩
  · intro h
    have hstart : applyWeightsStart s
        = .rejected { s with error := some "No optimization results available. Please run optimization first." } := by
      simp [applyWeightsStart, h]
    exact ⟨hstart, by simp [requestOf, hstart], fun res => by simp [applyWeightsRun, hstart]⟩

theorem preconditions_rejected_locally_witness :
    runOptimizationStart emptyState
        = .rejected { emptyState with error := some "No zones loaded. Please wait for zones to load first." } ∧
      applyWeightsStart emptyState
        = .rejected { emptyState with error := some "No optimization results available. Please run optimization first." } :=
  ⟨((preconditions_rejected_locally emptyState).1 rfl).1,
   ((preconditions_rejected_locally emptyState).2 rfl).1⟩

/-- C4: a failing network call in any of the four operations reports a single
error value and leaves the held city and optimizationResponse exactly as they
were, with the busy flag of the operation cleared, so the operation can be
retried (for RunOptimization and ApplyWeights the failure case presupposes the
precondition held, since otherwise no network call happens at all). -/
theorem network_failure_preserves_state (s : AppState) (e : String) :
    ((fetchCityRun s (Except.error e)).city = s.city ∧
      (fetchCityRun s (Except.error e)).optimizationResponse = s.optimizationResponse ∧
      (fetchCityRun s (Except.error e)).error
        = some "Unable to connect to backend. Make sure the server is running." ∧
      (fetchCityRun s (Except.error e)).loading = false) ∧
    (cityZones s ≠ [] →
      (runOptimizationRun s (Except.error e)).city = s.city ∧
      (runOptimizationRun s (Except.error e)).optimizationResponse = s.optimizationResponse ∧
      (runOptimizationRun s (Except.error e)).error = some ("Optimization failed: " ++ e) ∧
      (runOptimizationRun s (Except.error e)).optimizing = false) ∧
    (s.optimizationResponse ≠ none →
      (applyWeightsRun s (Except.error e)).city = s.city ∧
      (applyWeightsRun s (Except.error e)).optimizationResponse = s.optimizationResponse ∧
      (applyWeightsRun s (Except.error e)).error = some "Failed to apply optimization weights." ∧
      (applyWeightsRun s (Except.error e)).applyingWeights = false) ∧
    ((loadDbResultRun s (Except.error e)).city = s.city ∧
      (loadDbResultRun s (Except.error e)).optimizationResponse = s.optimizationResponse ∧
      (loadDbResultRun s (Except.error e)).error = some "Failed to load result from database." ∧
      (loadDbResultRun s (Except.error e)).loading = false) := by
  refine ⟨⟨rfl, rfl, rfl, rfl⟩, ?_, ?_, ⟨rfl, rfl, rfl, rfl⟩⟩
  · intro h
    cases hc : s.city with
    | none => exact absurd (by simp [cityZones, hc]) h
    | some c =>
      have hz : c.parking_zones.isEmpty = false := by
        cases hzz : c.parking_zones with
        | nil => exact absurd (by simp [cityZones, hc, hzz]) h
        | cons a l => rfl
      refine ⟨?_, ?_, ?_, ?_⟩ <;>
        simp [runOptimizationRun, runOptimizationStart, runOptimizationFinish, hc, hz]
  · intro h
    cases ho : s.optimizationResponse with
    | none => exact absurd ho h
    | some r =>
      refine ⟨?_, ?_, ?_, ?_⟩ <;>
        simp [applyWeightsRun, applyWeightsStart, applyWeightsFinish, ho]

theorem network_failure_preserves_state_witness :
    (runOptimizationRun sessionState (Except.error "boom")).city = sessionState.city ∧
      (applyWeightsRun sessionState (Except.error "boom")).optimizationResponse
        = sessionState.optimizationResponse :=
  ⟨((network_failure_preserves_state sessionState "boom").2.1
      (by simp [cityZones, sessionState, cityAB])).1,
   ((network_failure_preserves_state sessionState "boom").2.2.1
      (by simp [sessionState])).2.1⟩

/-- C6 counterexample: a successful LoadCity stores the fetched city but does
NOT invalidate the held OptimizationResponse: starting from a session holding
a response whose scenario references zone id 1, loading a city whose only
zone has id 3 leaves the stale response in place. -/
theorem loadCity_keeps_stale_response :
    (fetchCityRun sessionState (Except.ok cityNew)).city = some cityNew ∧
      (fetchCityRun sessionState (Except.ok cityNew)).optimizationResponse = some resp1 ∧
      (fetchCityRun sessionState (Except.ok cityNew)).optimizationResponse ≠ none :=
  ⟨rfl, rfl, fun h => Option.noConfusion h⟩

/-- C6 amended: a successful LoadCity fully replaces the held city and clears
the error, but the held OptimizationResponse is left exactly as it was — it
stays available for ApplyWeights even though its scenario zone ids may no
longer match the new city. -/
theorem loadCity_replaces_city_preserves_response (s : AppState) (cityData : City) :
    (fetchCityRun s (Except.ok cityData)).city = some cityData ∧
      (fetchCityRun s (Except.ok cityData)).optimizationResponse = s.optimizationResponse ∧
      (fetchCityRun s (Except.ok cityData)).error = none ∧
      (fetchCityRun s (Except.ok cityData)).loading = false :=
  ⟨rfl, rfl, rfl, rfl⟩

/-- C7 counterexample: at most one in-flight network operation per kind does
not hold for every kind: with a response held and an ApplyWeights call
already pending (the applyingWeights flag set), the Apply control is still
enabled and a click issues a second select request instead of a busy
rejection. -/
theorem applyWeights_second_request_while_pending :
    pendingApplyState.applyingWeights = true ∧
      applyWeightsInvoke pendingApplyState
        = .invoked (.started { pendingApplyState with applyingWeights := true, error := none }
            { scenarios := some [scenario1], weights := buildWeightsDict baseWeights }) ∧
      requestOf (applyWeightsStart pendingApplyState) ≠ none :=
  ⟨rfl, rfl, fun h => Option.noConfusion h⟩

/-- C7 amended: while a RunOptimization call is pending, a second
RunOptimization invocation is surfaced as a busy rejection that leaves the
state untouched and the pending call finishing to the same eventual result
as if the second invocation had never happened; at-most-one-in-flight does
not, however, hold for every operation kind: whenever a response is held,
the Apply control invokes ApplyWeights and a request is issued regardless of
a pending ApplyWeights call. -/
theorem runOptimization_busy_rejection (s : AppState) :
    (s.optimizing = true →
        runOptimizationInvoke s = .busy s ∧
          (runOptimizationInvoke s).afterState = s ∧
          ∀ res, runOptimizationFinish ((runOptimizationInvoke s).afterState) res
            = runOptimizationFinish s res) ∧
    (∀ r, s.optimizationResponse = some r →
        applyWeightsInvoke s
          = .invoked (.started { s with applyingWeights := true, error := none }
              { scenarios := r.scenarios, weights := buildWeightsDict s.weights })) := by
  constructor
  · intro h
    have hb : runOptimizationInvoke s = .busy s := by simp [runOptimizationInvoke, h]
    refine ⟨hb, ?_, fun res => ?_⟩
    · rw [hb]
      rfl
    · rw [hb]
      rfl
  · intro r h
    simp [applyWeightsInvoke, applyWeightsStart, h]

theorem runOptimization_busy_rejection_witness :
    runOptimizationInvoke busyState = .busy busyState ∧
      applyWeightsInvoke busyState
        = .invoked (.started { busyState with applyingWeights := true, error := none }
            { scenarios := resp1.scenarios, weights := buildWeightsDict busyState.weights }) :=
  ⟨((runOptimization_busy_rejection busyState).1 rfl).1,
   (runOptimization_busy_rejection busyState).2 resp1 rfl⟩

/-- C8 counterexample: a Weights value carrying the unknown key parking is
not rejected at the ApplyWeights boundary: the start phase issues the select
request with no error, and the forwarded weights dictionary silently omits
the unknown key, keeping exactly the four recognized dimensions. -/
theorem applyWeights_unknown_key_not_rejected :
    applyWeightsStart extraKeyState
        = .started { extraKeyState with applyingWeights := true, error := none }
          { scenarios := some [scenario1],
            weights := [("revenue", 50), ("occupancy", 30), ("drop", 10), ("fairness", 10)] } ∧
      weightsExtra.extra = [("parking", 7)] ∧
      (buildWeightsDict weightsExtra).map Prod.fst = ["revenue", "occupancy", "drop", "fairness"] :=
  ⟨rfl, rfl, rfl⟩

/-- C8 amended: ApplyWeights never rejects a Weights value on account of
unknown keys; for every state holding a response, the start phase issues the
request with no error, and the weights dictionary it forwards contains
exactly the four recognized dimensions — any other keys are silently
dropped. -/
theorem applyWeights_drops_unknown_keys (s : AppState) (r : OptimizationResponse)
    (h : s.optimizationResponse = some r) :
    applyWeightsStart s
        = .started { s with applyingWeights := true, error := none }
          { scenarios := r.scenarios, weights := buildWeightsDict s.weights } ∧
      (buildWeightsDict s.weights).map Prod.fst
        = ["revenue", "occupancy", "drop", "fairness"] := by
  constructor
  · simp [applyWeightsStart, h]
  · rfl

theorem applyWeights_drops_unknown_keys_witness :
    applyWeightsStart extraKeyState
        = .started { extraKeyState with applyingWeights := true, error := none }
          { scenarios := resp1.scenarios, weights := buildWeightsDict extraKeyState.weights } ∧
      (buildWeightsDict extraKeyState.weights).map Prod.fst
        = ["revenue", "occupancy", "drop", "fairness"] :=
  applyWeights_drops_unknown_keys extraKeyState resp1 rfl

theorem loadDb_ok_withResponse (s : AppState) (result : SavedResult)
    (snap : List SnapshotZone) (orsp : OptimizationResponse) (scen : List Scenario)
    (h1 : result.map_snapshot = some snap) (h2 : snap.isEmpty = false)
    (h3 : result.optimization_response = some orsp) (h4 : orsp.scenarios = some scen) :
    (loadDbResultRun s (Except.ok result)).optimizationResponse = some orsp ∧
      (loadDbResultRun s (Except.ok result)).city = some
        { name := dbCityName result.parameters,
          parking_zones := snap.map loadedZoneWithResponse,
          point_of_interests := [] } ∧
      (loadDbResultRun s (Except.ok result)).error = none ∧
      (loadDbResultRun s (Except.ok result)).loading = false := by
  cases hw : result.parameters.bind (fun q => q.weights) <;>
    cases hot : truthyStr (result.parameters.bind (fun q => q.optimizer_type)) <;>
      refine ⟨?_, ?_, ?_, ?_⟩ <;>
        simp [loadDbResultRun, h1, h2, h3, h4, hw, hot]

theorem loadDb_ok_finalOnly (s : AppState) (result : SavedResult)
    (snap : List SnapshotZone)
    (h1 : result.map_snapshot = some snap) (h2 : snap.isEmpty = false)
    (hno : result.optimization_response = none ∨
      ∃ orsp, result.optimization_response = some orsp ∧ orsp.scenarios = none) :
    (loadDbResultRun s (Except.ok result)).optimizationResponse = none ∧
      (loadDbResultRun s (Except.ok result)).city = some
        { name := dbCityName result.parameters,
          parking_zones := snap.map loadedZoneFinalOnly,
          point_of_interests := [] } ∧
      (loadDbResultRun s (Except.ok result)).error = none ∧
      (loadDbResultRun s (Except.ok result)).loading = false := by
  rcases hno with h3 | ⟨orsp, h3, h4⟩
  · cases hw : result.parameters.bind (fun q => q.weights) <;>
      cases hot : truthyStr (result.parameters.bind (fun q => q.optimizer_type)) <;>
        refine ⟨?_, ?_, ?_, ?_⟩ <;>
          simp [loadDbResultRun, h1, h2, h3, hw, hot]
  · cases hw : result.parameters.bind (fun q => q.weights) <;>
      cases hot : truthyStr (result.parameters.bind (fun q => q.optimizer_type)) <;>
        refine ⟨?_, ?_, ?_, ?_⟩ <;>
          simp [loadDbResultRun, h1, h2, h3, h4, hw, hot]

/-- C5: loading a SavedResult that carries an optimization response with
scenarios restores that response, and rebuilds the city from the snapshot
with pre-decision fields only: no reconstructed zone carries new_fee,
predicted_occupancy or predicted_revenue. -/
theorem loadSavedResult_restores_pre_decision (s : AppState) (result : SavedResult)
    (snap : List SnapshotZone) (orsp : OptimizationResponse) (scen : List Scenario)
    (h1 : result.map_snapshot = some snap) (h2 : snap.isEmpty = false)
    (h3 : result.optimization_response = some orsp) (h4 : orsp.scenarios = some scen) :
    (loadDbResultRun s (Except.ok result)).optimizationResponse = some orsp ∧
      (loadDbResultRun s (Except.ok result)).city = some
        { name := dbCityName result.parameters,
          parking_zones := snap.map loadedZoneWithResponse,
          point_of_interests := [] } ∧
      ∀ z ∈ snap.map loadedZoneWithResponse,
        z.new_fee = none ∧ z.predicted_occupancy = none ∧ z.predicted_revenue = none := by
  obtain ⟨ha, hb, -, -⟩ := loadDb_ok_withResponse s result snap orsp scen h1 h2 h3 h4
  refine ⟨ha, hb, ?_⟩
  intro z hz
  obtain ⟨w, -, rfl⟩ := List.mem_map.mp hz
  exact ⟨rfl, rfl, rfl⟩

theorem loadSavedResult_restores_pre_decision_witness :
    (loadDbResultRun emptyState (Except.ok savedFull)).optimizationResponse = some resp1 ∧
      (loadDbResultRun emptyState (Except.ok savedFull)).city = some
        { name := dbCityName savedFull.parameters,
          parking_zones := [snapZ1].map loadedZoneWithResponse,
          point_of_interests := [] } :=
  ⟨(loadSavedResult_restores_pre_decision emptyState savedFull [snapZ1] resp1 [scenario1]
      rfl rfl rfl rfl).1,
   (loadSavedResult_restores_pre_decision emptyState savedFull [snapZ1] resp1 [scenario1]
      rfl rfl rfl rfl).2.1⟩

/-- C9 counterexample: a SavedResult whose map_snapshot is the empty array is
not loadable: loadDbResult reports an error and leaves the held city and
response as they were, refuting the claim that every SavedResult loads
without a reported error. -/
theorem loadSavedResult_empty_snapshot_rejected :
    (loadDbResultRun sessionState (Except.ok savedNoSnap)).error
        = some "No map snapshot found in the selected result." ∧
      (loadDbResultRun sessionState (Except.ok savedNoSnap)).city = sessionState.city ∧
      (loadDbResultRun sessionState (Except.ok savedNoSnap)).optimizationResponse
        = sessionState.optimizationResponse :=
  ⟨rfl, rfl, rfl⟩

/-- C9 amended: every fetched SavedResult whose map_snapshot is present and
non-empty is loadable without a reported error, and numeric fields missing
from a snapshot zone are filled with the documented defaults (elasticity
-0.4, min_fee 0.5, max_fee 5.0) in both reconstruction modes rather than
failing; a missing or empty map_snapshot, however, is reported as an error. -/
theorem loadSavedResult_nonempty_defaults (s : AppState) (result : SavedResult)
    (snap : List SnapshotZone)
    (h1 : result.map_snapshot = some snap) (h2 : snap.isEmpty = false) :
    (loadDbResultRun s (Except.ok result)).error = none ∧
      (loadDbResultRun s (Except.ok result)).loading = false ∧
      (∀ z : SnapshotZone, z.elasticity = none →
        (loadedZoneWithResponse z).elasticity = some (-(2/5)) ∧
          (loadedZoneFinalOnly z).elasticity = some (-(2/5))) ∧
      (∀ z : SnapshotZone, z.min_fee = none →
        (loadedZoneWithResponse z).min_fee = some (1/2) ∧
          (loadedZoneFinalOnly z).min_fee = some (1/2)) ∧
      (∀ z : SnapshotZone, z.max_fee = none →
        (loadedZoneWithResponse z).max_fee = some 5 ∧
          (loadedZoneFinalOnly z).max_fee = some 5) := by
  have herr : (loadDbResultRun s (Except.ok result)).error = none ∧
      (loadDbResultRun s (Except.ok result)).loading = false := by
    cases h3 : result.optimization_response with
    | none =>
      obtain ⟨-, -, he, hl⟩ := loadDb_ok_finalOnly s result snap h1 h2 (Or.inl h3)
      exact ⟨he, hl⟩
    | some orsp =>
      cases h4 : orsp.scenarios with
      | none =>
        obtain ⟨-, -, he, hl⟩ :=
          loadDb_ok_finalOnly s result snap h1 h2 (Or.inr ⟨orsp, h3, h4⟩)
        exact ⟨he, hl⟩
      | some scen =>
        obtain ⟨-, -, he, hl⟩ := loadDb_ok_withResponse s result snap orsp scen h1 h2 h3 h4
        exact ⟨he, hl⟩
  refine ⟨herr.1, herr.2, ?_, ?_, ?_⟩ <;> intro z h <;>
    exact ⟨by simp [loadedZoneWithResponse, h], by simp [loadedZoneFinalOnly, h]⟩

theorem loadSavedResult_nonempty_defaults_witness :
    (loadDbResultRun emptyState (Except.ok savedFull)).error = none ∧
      (loadedZoneWithResponse snapZ2).elasticity = some (-(2/5)) ∧
      (loadedZoneWithResponse snapZ2).min_fee = some (1/2) ∧
      (loadedZoneWithResponse snapZ2).max_fee = some 5 :=
  ⟨(loadSavedResult_nonempty_defaults emptyState savedFull [snapZ1] rfl rfl).1,
   ((loadSavedResult_nonempty_defaults emptyState savedFull [snapZ1] rfl rfl).2.2.1 snapZ2 rfl).1,
   ((loadSavedResult_nonempty_defaults emptyState savedFull [snapZ1] rfl rfl).2.2.2.1 snapZ2 rfl).1,
   ((loadSavedResult_nonempty_defaults emptyState savedFull [snapZ1] rfl rfl).2.2.2.2 snapZ2 rfl).1⟩

/-- C10: a snapshot zone that omits current_fee, maximum_capacity or
current_capacity is reconstructed with the omitted field equal to 0 in both
reconstruction modes, and the reconstructed city zones come from exactly
these mappings — so a reconstructed city can contain zones whose
maximum_capacity is 0, outside the stated range of the data model. -/
theorem loadSavedResult_missing_numeric_zero (z : SnapshotZone) :
    (z.current_fee = none →
        (loadedZoneWithResponse z).current_fee = some 0 ∧
          (loadedZoneFinalOnly z).current_fee = some 0) ∧
    (z.maximum_capacity = none →
        (loadedZoneWithResponse z).maximum_capacity = some 0 ∧
          (loadedZoneFinalOnly z).maximum_capacity = some 0) ∧
    (z.current_capacity = none →
        (loadedZoneWithResponse z).current_capacity = some 0 ∧
          (loadedZoneFinalOnly z).current_capacity = some 0) ∧
    (∀ s result snap, result.map_snapshot = some snap → snap.isEmpty = false →
        ∃ c, (loadDbResultRun s (Except.ok result)).city = some c ∧
          (c.parking_zones = snap.map loadedZoneWithResponse ∨
            c.parking_zones = snap.map loadedZoneFinalOnly)) := by
  refine ⟨?_, ?_, ?_, ?_⟩
  · intro h
    exact ⟨by simp [loadedZoneWithResponse, h], by simp [loadedZoneFinalOnly, h]⟩
  · intro h
    exact ⟨by simp [loadedZoneWithResponse, h], by simp [loadedZoneFinalOnly, h]⟩
  · intro h
    exact ⟨by simp [loadedZoneWithResponse, h], by simp [loadedZoneFinalOnly, h]⟩
  · intro s result snap h1 h2
    cases h3 : result.optimization_response with
    | none =>
      obtain ⟨-, hb, -, -⟩ := loadDb_ok_finalOnly s result snap h1 h2 (Or.inl h3)
      exact ⟨_, hb, Or.inr rfl⟩
    | some orsp =>
      cases h4 : orsp.scenarios with
      | none =>
        obtain ⟨-, hb, -, -⟩ :=
          loadDb_ok_finalOnly s result snap h1 h2 (Or.inr ⟨orsp, h3, h4⟩)
        exact ⟨_, hb, Or.inr rfl⟩
      | some scen =>
        obtain ⟨-, hb, -, -⟩ := loadDb_ok_withResponse s result snap orsp scen h1 h2 h3 h4
        exact ⟨_, hb, Or.inl rfl⟩

theorem loadSavedResult_missing_numeric_zero_witness :
    (loadedZoneWithResponse snapZ2).maximum_capacity = some 0 ∧
      (loadedZoneWithResponse snapZ2).current_fee = some 0 ∧
      (loadedZoneFinalOnly snapZ2).current_capacity = some 0 :=
  ⟨((loadSavedResult_missing_numeric_zero snapZ2).2.1 rfl).1,
   ((loadSavedResult_missing_numeric_zero snapZ2).1 rfl).1,
   ((loadSavedResult_missing_numeric_zero snapZ2).2.2.1 rfl).2⟩

end ParkingApp
